import Mathlib

/-!
Shallow embedding of the authentication and credential lifecycle subsystem of
the ai-readme-generator backend (app/core/auth.py, app/core/security.py,
app/core/session.py, app/api/routes/auth.py), together with theorems settling
the specification claims about it.

Times are modelled as unix timestamps in seconds (Int). A signed JWT is
modelled as its claim set paired with the key it was signed with; decoding
with a key succeeds exactly when the keys agree (signature check) and, when
expiry verification is on, the token is not yet expired, mirroring the PyJWT
encode/decode contract used by the code.
-/

/-- Relevant fields of app.config.Settings. ACCESS_TOKEN_EXPIRE_MINUTES
defaults to 60 * 24 * 7 (7 days) in config.py. -/
structure Settings where
  SECRET_KEY : String
  ACCESS_TOKEN_EXPIRE_MINUTES : Int
  GITHUB_APP_ID : String
  GITHUB_APP_PRIVATE_KEY : String
  deriving Repr, DecidableEq

/-- The claim set of a user-facing JWT minted by this backend:
sub, installation_id, exp, iat. iat is an Option so that a payload lacking
the iat claim (relevant to the refresh endpoint, which reads
payload.get with default 0) is representable. -/
structure JwtPayload where
  sub : String
  installation_id : Option Int
  exp : Int
  iat : Option Int
  deriving Repr, DecidableEq

/-- A signed token: the claim set together with the signing key. -/
structure Jwt where
  payload : JwtPayload
  key : String
  deriving Repr, DecidableEq

/-- Error kinds raised by PyJWT decode that the code distinguishes. -/
inductive JwtError where
  | expiredSignature
  | invalidToken
  deriving Repr, DecidableEq

/-- jwt.encode(payload, key, HS256): signs the claim set with the key. -/
def jwtEncode (p : JwtPayload) (key : String) : Jwt :=
  { payload := p, key := key }

/-- jwt.decode(token, key, HS256): fails with InvalidTokenError when the
signature does not verify (wrong key); when expiry verification is on
(the default; the refresh endpoint turns it off) it fails with
ExpiredSignatureError when exp is at or before now; otherwise it returns
the claim set. -/
def jwtDecode (t : Jwt) (key : String) (now : Int) (verifyExp : Bool) :
    Except JwtError JwtPayload :=
  if t.key ≠ key then .error .invalidToken
  else if verifyExp = true ∧ t.payload.exp ≤ now then .error .expiredSignature
  else .ok t.payload

/-- An HTTPException as raised by the route handlers: status code and detail. -/
structure HttpError where
  status_code : Int
  detail : String
  deriving Repr, DecidableEq

/-- app/core/auth.py create_jwt_token: payload with sub = username,
installation_id, exp = now + ACCESS_TOKEN_EXPIRE_MINUTES, iat = now,
signed with settings.SECRET_KEY under HS256. -/
def create_jwt_token (s : Settings) (now : Int) (username : String)
    (installation_id : Option Int) : Jwt :=
  jwtEncode
    { sub := username
      installation_id := installation_id
      exp := now + s.ACCESS_TOKEN_EXPIRE_MINUTES * 60
      iat := some now }
    s.SECRET_KEY

/-- The body returned by POST /auth/verify-token on success. -/
structure VerifyResult where
  valid : Bool
  username : String
  installation_id : Option Int
  deriving Repr, DecidableEq

/-- app/api/routes/auth.py verify_token: decodes the token with SECRET_KEY
(expiry verified); on success returns valid, the sub claim as username, and
the installation_id claim; on any PyJWTError raises a 401. -/
def verify_token (s : Settings) (now : Int) (t : Jwt) :
    Except HttpError VerifyResult :=
  match jwtDecode t s.SECRET_KEY now true with
  | .ok p =>
      .ok { valid := true, username := p.sub,
            installation_id := p.installation_id }
  | .error _ =>
      .error { status_code := 401, detail := "Invalid token" }

/-- app/api/routes/auth.py refresh_token (the stage after Bearer extraction):
decodes with expiry verification off; reads iat with default 0; when iat is
truthy (nonzero) and now - iat exceeds 30 days, raises 401 Token too old;
otherwise mints a new token with the same sub and installation_id,
exp = now + ACCESS_TOKEN_EXPIRE_MINUTES and iat = now. -/
def refresh_token (s : Settings) (now : Int) (t : Jwt) :
    Except HttpError Jwt :=
  match jwtDecode t s.SECRET_KEY now false with
  | .error _ => .error { status_code := 401, detail := "Invalid token" }
  | .ok p =>
      let iat := p.iat.getD 0
      if iat ≠ 0 ∧ now - iat > 60 * 60 * 24 * 30 then
        .error { status_code := 401,
                 detail := "Token too old to refresh, please login again" }
      else
        .ok (jwtEncode
          { sub := p.sub
            installation_id := p.installation_id
            exp := now + s.ACCESS_TOKEN_EXPIRE_MINUTES * 60
            iat := some now }
          s.SECRET_KEY)

/-- Concrete settings used by witnesses and counterexamples: the default
ACCESS_TOKEN_EXPIRE_MINUTES of 60 * 24 * 7 = 10080 from config.py. -/
def demoSettings : Settings :=
  { SECRET_KEY := "k", ACCESS_TOKEN_EXPIRE_MINUTES := 10080,
    GITHUB_APP_ID := "12345", GITHUB_APP_PRIVATE_KEY := "pk" }

/-- Helper: verifying a freshly minted user token before its expiry returns
the minted username and installation id. Shared by the issuance roundtrip
and the refresh correctness development. -/
theorem verifyMintedTokenEq (s : Settings) (username : String)
    (installation_id : Option Int) (tIssue tVerify : Int)
    (h : tVerify < tIssue + s.ACCESS_TOKEN_EXPIRE_MINUTES * 60) :
    verify_token s tVerify (create_jwt_token s tIssue username installation_id)
      = .ok { valid := true, username := username,
              installation_id := installation_id } := by
  have h2 : ¬ (tIssue + s.ACCESS_TOKEN_EXPIRE_MINUTES * 60 ≤ tVerify) := by omega
  simp [verify_token, create_jwt_token, jwtEncode, jwtDecode, h2]

/-- Claim C1: a token minted by create_jwt_token for a username and optional
installation_id, when decoded and verified by the verify-token endpoint at
any time before its expiry, yields exactly the same username as sub and the
same installation_id. -/
theorem create_then_verify_roundtrip (s : Settings) (username : String)
    (installation_id : Option Int) (tIssue tVerify : Int)
    (h : tVerify < tIssue + s.ACCESS_TOKEN_EXPIRE_MINUTES * 60) :
    verify_token s tVerify (create_jwt_token s tIssue username installation_id)
      = .ok { valid := true, username := username,
              installation_id := installation_id } :=
  verifyMintedTokenEq s username installation_id tIssue tVerify h

/-- Witness for C1 at a concrete username, installation id and times. -/
theorem create_then_verify_roundtrip_witness :
    verify_token demoSettings 100
      (create_jwt_token demoSettings 0 "alice" (some 42))
      = .ok { valid := true, username := "alice",
              installation_id := some 42 } :=
  create_then_verify_roundtrip demoSettings "alice" (some 42) 0 100 (by decide)

/-- A token signed with the server key whose iat claim is present but equals
zero; the refresh endpoint treats it as if iat were absent because of the
Python truthiness test "if iat and ...". -/
def zeroIatToken : Jwt :=
  jwtEncode { sub := "alice", installation_id := none,
              exp := 1000, iat := some 0 } "k"

/-- Counterexample to Claim C2 as stated: this token has iat present
(some 0) and at now = 1700000000 its age exceeds 30 days, yet the refresh
endpoint returns a fresh token instead of failing with the 401 too-old
response, because iat = 0 is falsy and the age check is skipped. -/
theorem refresh_token_zero_iat_counterexample :
    zeroIatToken.payload.iat = some 0 ∧
    (1700000000 : Int) - 0 > 60 * 60 * 24 * 30 ∧
    refresh_token demoSettings 1700000000 zeroIatToken =
      .ok (jwtEncode { sub := "alice", installation_id := none,
                       exp := 1700604800, iat := some 1700000000 } "k") :=
  ⟨rfl, by decide, rfl⟩

/-- Claim C2 (amended): for a bearer token signed with the server key whose
iat claim is present and nonzero and satisfies now - iat > 30 days, the
refresh endpoint fails with the 401 too-old response and never returns a
new token. -/
theorem refresh_token_too_old_rejected (s : Settings) (now : Int) (t : Jwt)
    (hkey : t.key = s.SECRET_KEY) (i : Int) (hiat : t.payload.iat = some i)
    (hnz : i ≠ 0) (hold : now - i > 60 * 60 * 24 * 30) :
    refresh_token s now t =
      .error { status_code := 401,
               detail := "Token too old to refresh, please login again" } := by
  have hc : 2592000 + i < now := by omega
  simp [refresh_token, jwtDecode, hkey, hiat, hnz, hold, hc]

/-- Witness for the amended C2: a token minted 31 days before now is
refused. -/
theorem refresh_token_too_old_rejected_witness :
    refresh_token demoSettings 2678500
      (jwtEncode { sub := "bob", installation_id := some 7,
                   exp := 1000, iat := some 100 } "k") =
      .error { status_code := 401,
               detail := "Token too old to refresh, please login again" } :=
  refresh_token_too_old_rejected demoSettings 2678500
    (jwtEncode { sub := "bob", installation_id := some 7,
                 exp := 1000, iat := some 100 } "k")
    (by decide) 100 (by decide) (by decide) (by decide)

/-- Claim C3: for a bearer token signed with the server key whose age
now - iat is at most 30 days, even when its expiry has already passed, the
refresh endpoint succeeds and returns exactly the token create_jwt_token
would mint at the current time: its iat is now, and it verifies at now. -/
theorem refresh_token_within_ceiling_succeeds (s : Settings) (now : Int)
    (t : Jwt) (hkey : t.key = s.SECRET_KEY) (i : Int)
    (hiat : t.payload.iat = some i) (hage : now - i ≤ 60 * 60 * 24 * 30)
    (hTTL : 0 < s.ACCESS_TOKEN_EXPIRE_MINUTES) :
    refresh_token s now t =
      .ok (create_jwt_token s now t.payload.sub t.payload.installation_id) ∧
    (create_jwt_token s now t.payload.sub t.payload.installation_id).payload.iat
      = some now ∧
    verify_token s now
        (create_jwt_token s now t.payload.sub t.payload.installation_id) =
      .ok { valid := true, username := t.payload.sub,
            installation_id := t.payload.installation_id } := by
  refine ⟨?_, ?_, ?_⟩
  · have hc : now ≤ 2592000 + i := by omega
    simp [refresh_token, jwtDecode, hkey, hiat, create_jwt_token,
      jwtEncode, hc]
  · simp [create_jwt_token, jwtEncode]
  · exact verifyMintedTokenEq s t.payload.sub t.payload.installation_id
      now now (by omega)

/-- Witness for C3: a token that expired at time 500 is still refreshed at
time 1000 because its age is under 30 days, and the new token has
iat = 1000 and verifies. -/
theorem refresh_token_within_ceiling_succeeds_witness :
    refresh_token demoSettings 1000
      (jwtEncode { sub := "carol", installation_id := some 3,
                   exp := 500, iat := some 100 } "k") =
      .ok (create_jwt_token demoSettings 1000 "carol" (some 3)) ∧
    (create_jwt_token demoSettings 1000 "carol" (some 3)).payload.iat
      = some 1000 ∧
    verify_token demoSettings 1000
        (create_jwt_token demoSettings 1000 "carol" (some 3)) =
      .ok { valid := true, username := "carol",
            installation_id := some 3 } :=
  refresh_token_within_ceiling_succeeds demoSettings 1000
    (jwtEncode { sub := "carol", installation_id := some 3,
                 exp := 500, iat := some 100 } "k")
    (by decide) 100 rfl (by decide) (by decide)

/-- Claim C10: for a bearer token signed with the server key whose payload
lacks the iat claim or has iat equal to 0, the refresh endpoint skips the
30-day age ceiling entirely and mints a new token, at any current time. -/
theorem refresh_token_missing_or_zero_iat_skips_ceiling (s : Settings)
    (now : Int) (t : Jwt) (hkey : t.key = s.SECRET_KEY)
    (hiat : t.payload.iat = none ∨ t.payload.iat = some 0) :
    refresh_token s now t =
      .ok (create_jwt_token s now t.payload.sub t.payload.installation_id) := by
  rcases hiat with h | h <;>
    simp [refresh_token, jwtDecode, hkey, h, create_jwt_token, jwtEncode]

/-- Witness for C10: a token minted far in the past with no iat claim is
still refreshed at a much later time. -/
theorem refresh_token_missing_iat_witness :
    refresh_token demoSettings 1700000000
      (jwtEncode { sub := "dave", installation_id := none,
                   exp := 1000, iat := none } "k") =
      .ok (create_jwt_token demoSettings 1700000000 "dave" none) :=
  refresh_token_missing_or_zero_iat_skips_ceiling demoSettings 1700000000
    (jwtEncode { sub := "dave", installation_id := none,
                 exp := 1000, iat := none } "k")
    (by decide) (Or.inl (by decide))

/-- The claim set of the GitHub App JWT built by generate_github_app_jwt:
iat, exp and iss. -/
structure AppJwtPayload where
  iat : Int
  exp : Int
  iss : String
  deriving Repr, DecidableEq

/-- Error raised by generate_github_app_jwt when the configured private key
is absent (Python truthiness: the empty string is falsy). -/
inductive ConfigError where
  | missingPrivateKey
  deriving Repr, DecidableEq

/-- app/core/auth.py generate_github_app_jwt: builds the claim set
iat = now, exp = now + 5 * 60, iss = settings.GITHUB_APP_ID, then signs it
with the base64-decoded App private key under RS256. The RS256 signing does
not alter the claim set, so the model returns the claim set that decoding
the assertion yields; the missing-key guard is kept. -/
def generate_github_app_jwt (s : Settings) (now : Int) :
    Except ConfigError AppJwtPayload :=
  if s.GITHUB_APP_PRIVATE_KEY = "" then .error .missingPrivateKey
  else .ok { iat := now, exp := now + 5 * 60, iss := s.GITHUB_APP_ID }

/-- Claim C4: every App assertion produced by generate_github_app_jwt, when
decoded, has exp - iat of at most 10 minutes and has iss equal to the
configured GitHub App id. -/
theorem app_jwt_short_lived_and_app_issuer (s : Settings) (now : Int)
    (p : AppJwtPayload) (h : generate_github_app_jwt s now = .ok p) :
    p.exp - p.iat ≤ 10 * 60 ∧ p.iss = s.GITHUB_APP_ID := by
  unfold generate_github_app_jwt at h
  by_cases hk : s.GITHUB_APP_PRIVATE_KEY = ""
  · simp [hk] at h
  · simp [hk] at h
    rw [← h]
    constructor
    · show now + 5 * 60 - now ≤ 10 * 60
      omega
    · rfl

/-- Witness for C4 at concrete settings and time. -/
theorem app_jwt_short_lived_and_app_issuer_witness :
    (300 : Int) + 0 - 0 ≤ 10 * 60 ∧ "12345" = demoSettings.GITHUB_APP_ID :=
  app_jwt_short_lived_and_app_issuer demoSettings 0
    { iat := 0, exp := 0 + 5 * 60, iss := "12345" } rfl

/-- The parts of an httpx response to the GitHub installation-token endpoint
that the code reads: the status code, the body text, and the token field of
the parsed JSON body. -/
structure GitHubTokenResponse where
  status_code : Int
  text : String
  token : String
  deriving Repr, DecidableEq

/-- app.exceptions.AuthException: an APIException with status code and
detail, mapped at the HTTP boundary to a response with that status. -/
structure AuthException where
  status_code : Int
  detail : String
  deriving Repr, DecidableEq

/-- app/core/auth.py get_installation_access_token, modelled on the upstream
response it receives: when the status is not 201 it raises AuthException
with the upstream status code and a detail embedding the upstream body;
otherwise it returns the token field of the JSON body. -/
def get_installation_access_token (resp : GitHubTokenResponse) :
    Except AuthException String :=
  if resp.status_code ≠ 201 then
    .error { status_code := resp.status_code,
             detail := "Failed to get installation token: " ++ resp.text }
  else .ok resp.token

/-- Claim C5: whenever the GitHub token-minting endpoint responds with a
status other than 201, get_installation_access_token fails with an
AuthException carrying the upstream status and body, propagated as the
result rather than a default value; on a 201 response it returns the minted
token. -/
theorem installation_token_upstream_error_propagates
    (resp : GitHubTokenResponse) :
    (resp.status_code ≠ 201 →
      get_installation_access_token resp =
        .error { status_code := resp.status_code,
                 detail := "Failed to get installation token: " ++ resp.text }) ∧
    (resp.status_code = 201 →
      get_installation_access_token resp = .ok resp.token) := by
  constructor
  · intro h
    simp [get_installation_access_token, h]
  · intro h
    simp [get_installation_access_token, h]

/-- Witness for C5: a 404 upstream response propagates as an AuthException
with status 404 and the upstream body, and a 201 response yields the
token. -/
theorem installation_token_upstream_error_propagates_witness :
    get_installation_access_token
        { status_code := 404, text := "Not Found", token := "" } =
      .error { status_code := 404,
               detail := "Failed to get installation token: Not Found" } ∧
    get_installation_access_token
        { status_code := 201, text := "created", token := "ghs_abc" } =
      .ok "ghs_abc" :=
  ⟨(installation_token_upstream_error_propagates
      { status_code := 404, text := "Not Found", token := "" }).1 (by decide),
   (installation_token_upstream_error_propagates
      { status_code := 201, text := "created", token := "ghs_abc" }).2 rfl⟩

/-- app/core/security.py verify_access_token: decodes the JWT and returns
the payload, but catches ExpiredSignatureError and InvalidTokenError and
returns None for both, converting every verification failure into an empty
result instead of raising. -/
def verify_access_token (s : Settings) (now : Int) (t : Jwt) :
    Option JwtPayload :=
  match jwtDecode t s.SECRET_KEY now true with
  | .ok p => some p
  | .error _ => none

/-- The parts of the httpx response from the GitHub user endpoint that
get_user_from_token reads: status code and the parsed JSON body. -/
structure GitHubUserResponse where
  status_code : Int
  user_json : String
  deriving Repr, DecidableEq

/-- app/core/auth.py get_user_from_token: returns None whenever the GitHub
user endpoint answers with a non-200 status, instead of raising; on 200 it
returns the response body. -/
def get_user_from_token (resp : GitHubUserResponse) : Option String :=
  if resp.status_code ≠ 200 then none else some resp.user_json

/-- Claim C9 is violated by the code: every token-verification failure in
verify_access_token and every identity-fetch failure in get_user_from_token
is converted into None rather than a raised typed error, so a caller can
continue as unauthenticated. -/
theorem auth_failures_swallowed_to_none :
    (∀ (s : Settings) (now : Int) (t : Jwt) (e : JwtError),
      jwtDecode t s.SECRET_KEY now true = .error e →
        verify_access_token s now t = none) ∧
    (∀ resp : GitHubUserResponse, resp.status_code ≠ 200 →
        get_user_from_token resp = none) := by
  constructor
  · intro s now t e h
    simp [verify_access_token, h]
  · intro resp h
    simp [get_user_from_token, h]

/-- Witness for the C9 violation: a token signed with a wrong key yields
None from verify_access_token, and a 401 from GitHub yields None from
get_user_from_token. -/
theorem auth_failures_swallowed_to_none_witness :
    verify_access_token demoSettings 0
        (jwtEncode { sub := "alice", installation_id := none,
                     exp := 1000, iat := some 0 } "wrong-key") = none ∧
    get_user_from_token { status_code := 401, user_json := "Unauthorized" }
      = none :=
  ⟨auth_failures_swallowed_to_none.1 demoSettings 0
      (jwtEncode { sub := "alice", installation_id := none,
                   exp := 1000, iat := some 0 } "wrong-key")
      .invalidToken rfl,
   auth_failures_swallowed_to_none.2
      { status_code := 401, user_json := "Unauthorized" } (by decide)⟩

/-- The stage the OAuth callback handler reaches before any network call:
a redirect carrying the upstream error, a redirect for a missing code, or
proceeding to exchange the code with GitHub. -/
inductive OauthCallbackStage where
  | redirectWithError (e : String)
  | redirectNoCode
  | exchangeCode (code : String)
  deriving Repr, DecidableEq

/-- FastAPI query binding: the value of the first query parameter with the
given name, if any. Parameters not named in the handler signature are
discarded by the framework. -/
def getQueryParam (req : List (String × String)) (key : String) :
    Option String :=
  (req.find? (fun p => p.1 == key)).map (fun p => p.2)

/-- app/api/routes/auth.py oauth_callback, first stage: the handler binds
only the code and error query parameters. With an error it redirects with
that error; without a code it redirects with no_code; otherwise it proceeds
to exchange the code. No state parameter is bound, read, or compared. -/
def oauth_callback (req : List (String × String)) : OauthCallbackStage :=
  match getQueryParam req "error" with
  | some e => .redirectWithError e
  | none =>
    match getQueryParam req "code" with
    | none => .redirectNoCode
    | some c => .exchangeCode c

/-- Claim C8 is violated by the code: a callback carrying a state value the
backend never issued still proceeds to exchange the code, and the handler
result is invariant under any state query parameter, so no CsrfError path
exists. -/
theorem oauth_callback_ignores_state :
    oauth_callback [("code", "abc123"), ("state", "never-issued-state")]
      = .exchangeCode "abc123" ∧
    ∀ (req : List (String × String)) (v : String),
      oauth_callback (("state", v) :: req) = oauth_callback req := by
  refine ⟨rfl, ?_⟩
  intro req v
  rfl

/-- app/schemas/auth.py SessionData: username, access token, creation and
expiry timestamps, optional installation id. On construction, a missing
expires_at is defaulted to created_at + ACCESS_TOKEN_EXPIRE_MINUTES. -/
structure SessionData where
  username : String
  access_token : String
  created_at : Int
  expires_at : Int
  installation_id : Option Int
  deriving Repr, DecidableEq

/-- The session TTL in seconds: ACCESS_TOKEN_EXPIRE_MINUTES * 60, the value
used both for the stored expires_at field and for the Redis key TTL. -/
def ttlSeconds (s : Settings) : Int :=
  s.ACCESS_TOKEN_EXPIRE_MINUTES * 60

/-- SessionData as constructed at time now by create_session: created_at is
now and expires_at defaults to created_at plus the TTL. -/
def mkSessionData (s : Settings) (now : Int) (username access_token : String)
    (installation_id : Option Int) : SessionData :=
  { username := username, access_token := access_token, created_at := now,
    expires_at := now + ttlSeconds s, installation_id := installation_id }

/-- A Redis value under a session key: the serialized SessionData together
with the absolute time at which the Redis key TTL (the ex argument of
redis set) elapses. -/
structure StoredSession where
  data : SessionData
  redisExpireAt : Int
  deriving Repr, DecidableEq

/-- The Redis contents used by app/core/session.py: the session keys
(prefix session:) and the reverse-lookup username index keys
(prefix username:), as association lists. -/
structure RedisState where
  sessions : List (String × StoredSession)
  userIndex : List (String × String)
  deriving Repr, DecidableEq

/-- Redis GET on an association list. -/
def alGet {α : Type} (l : List (String × α)) (k : String) : Option α :=
  (l.find? (fun p => p.1 == k)).map (fun p => p.2)

/-- Redis DEL on an association list. -/
def alDel {α : Type} (k : String) (l : List (String × α)) :
    List (String × α) :=
  l.filter (fun p => p.1 != k)

/-- Redis SET on an association list: overwrites any previous binding. -/
def alSet {α : Type} (k : String) (v : α) (l : List (String × α)) :
    List (String × α) :=
  (k, v) :: alDel k l

/-- app/core/session.py create_session: builds the SessionData, stores it
under the session key with a Redis TTL of ACCESS_TOKEN_EXPIRE_MINUTES * 60,
and sets the username index to the new session id. -/
def create_session (s : Settings) (now : Int)
    (username access_token session_id : String)
    (installation_id : Option Int) (st : RedisState) : RedisState :=
  { sessions :=
      alSet session_id
        { data := mkSessionData s now username access_token installation_id,
          redisExpireAt := now + ttlSeconds s }
        st.sessions,
    userIndex := alSet username session_id st.userIndex }

/-- app/core/session.py get_session: a Redis GET that returns nothing once
the key TTL has elapsed, and the stored SessionData otherwise. -/
def get_session (now : Int) (session_id : String) (st : RedisState) :
    Option SessionData :=
  match alGet st.sessions session_id with
  | none => none
  | some e => if now < e.redisExpireAt then some e.data else none

/-- app/core/session.py delete_session: looks the session up, returns False
when absent, otherwise deletes the username index entry and the session key
and returns True. -/
def delete_session (now : Int) (session_id : String) (st : RedisState) :
    Bool × RedisState :=
  match get_session now session_id st with
  | none => (false, st)
  | some d =>
      (true,
       { sessions := alDel session_id st.sessions,
         userIndex := alDel d.username st.userIndex })

/-- app/core/session.py find_session_by_username: a Redis GET on the
username index. -/
def find_session_by_username (username : String) (st : RedisState) :
    Option String :=
  alGet st.userIndex username

/-- app/core/session.py refresh_session: returns False when the session is
absent; when the stored session is expired (is_expired: now strictly past
expires_at) it deletes the session and returns False; otherwise it extends
expires_at to now plus the TTL, rewrites the key with a fresh Redis TTL,
and returns True. -/
def refresh_session (s : Settings) (now : Int) (session_id : String)
    (st : RedisState) : Bool × RedisState :=
  match get_session now session_id st with
  | none => (false, st)
  | some d =>
      if now > d.expires_at then
        (false, (delete_session now session_id st).2)
      else
        (true,
         { st with
             sessions :=
               alSet session_id
                 { data := { d with expires_at := now + ttlSeconds s },
                   redisExpireAt := now + ttlSeconds s }
                 st.sessions })

/-- app/core/auth.py create_user_session: finds any existing session for the
username and deletes it, then creates the new session under the freshly
generated session id and returns that id with the stored data. The
create_user database upsert does not touch the session store and is out of
this model. -/
def create_user_session (s : Settings) (now : Int)
    (username access_token : String) (installation_id : Option Int)
    (session_id : String) (st : RedisState) :
    (String × Option SessionData) × RedisState :=
  let st1 :=
    match find_session_by_username username st with
    | some sid => (delete_session now sid st).2
    | none => st
  let st2 := create_session s now username access_token session_id
    installation_id st1
  ((session_id, get_session now session_id st2), st2)

/-- The ids of the sessions for a username still retrievable at time now. -/
def liveSessionIdsFor (now : Int) (username : String) (st : RedisState) :
    List String :=
  (st.sessions.filter
    (fun p => p.2.data.username == username && decide (now < p.2.redisExpireAt))).map
    (fun p => p.1)

/-- Lookup after an overwrite at the same key finds the new value. -/
theorem alGet_alSet {α : Type} (k : String) (v : α)
    (l : List (String × α)) : alGet (alSet k v l) k = some v := by
  simp [alGet, alSet, List.find?]

set_option linter.unnecessarySimpa false in
/-- Lookup after deletion of the same key finds nothing. -/
theorem alGet_alDel {α : Type} (k : String) (l : List (String × α)) :
    alGet (alDel k l) k = none := by
  induction l with
  | nil => rfl
  | cons a as ih =>
      by_cases h : a.1 = k
      · simpa [alDel, List.filter_cons, h] using ih
      · simpa [alDel, List.filter_cons, h, alGet, List.find?] using ih

/-- The empty Redis state used as the starting point of the two-creation
scenario. -/
def emptyRedis : RedisState := { sessions := [], userIndex := [] }

/-- The state after two sequential create_user_session calls for the same
username starting from the empty store. -/
def twoCreates (s : Settings) (U tok1 tok2 : String)
    (inst1 inst2 : Option Int) (sid1 sid2 : String)
    (now1 now2 : Int) : RedisState :=
  let st1 := (create_user_session s now1 U tok1 inst1 sid1 emptyRedis).2
  (create_user_session s now2 U tok2 inst2 sid2 st1).2

/-- Claim C6: after two sequential session creations for a username U with
distinct generated session ids, the first session id is no longer
retrievable via get_session, find_session_by_username returns the newer
session id, and exactly one session for U is live: the newer one. -/
theorem single_active_session_after_two_creates (s : Settings)
    (U tok1 tok2 sid1 sid2 : String) (inst1 inst2 : Option Int)
    (now1 now2 : Int) (hsid : sid1 ≠ sid2)
    (hTTL : 0 < s.ACCESS_TOKEN_EXPIRE_MINUTES) :
    get_session now2 sid1 (twoCreates s U tok1 tok2 inst1 inst2 sid1 sid2 now1 now2) = none ∧
    find_session_by_username U (twoCreates s U tok1 tok2 inst1 inst2 sid1 sid2 now1 now2) = some sid2 ∧
    liveSessionIdsFor now2 U (twoCreates s U tok1 tok2 inst1 inst2 sid1 sid2 now1 now2) = [sid2] := by
  have hTTLpos : now2 < now2 + ttlSeconds s := by
    have : 0 < ttlSeconds s := by
      unfold ttlSeconds
      omega
    omega
  have h21 : (sid2 == sid1) = false := by
    simp [Ne.symm hsid]
  have h12 : (sid1 == sid2) = false := by
    simp [hsid]
  by_cases hlive : now2 < now1 + ttlSeconds s
  · refine ⟨?_, ?_, ?_⟩ <;>
      simp [twoCreates, create_user_session, create_session, delete_session,
        get_session, find_session_by_username, emptyRedis, alGet, alSet,
        alDel, List.find?, List.filter, mkSessionData, liveSessionIdsFor,
        hlive, h21, h12, hTTLpos]
  · have hbne : (sid1 != sid2) = true := by
      simp [hsid]
    have hle : now1 + ttlSeconds s ≤ now2 := by omega
    refine ⟨?_, ?_, ?_⟩ <;>
      simp [twoCreates, create_user_session, create_session, delete_session,
        get_session, find_session_by_username, emptyRedis, alGet, alSet,
        alDel, List.find?, List.filter, mkSessionData, liveSessionIdsFor,
        hlive, h21, h12, hTTLpos, hbne, hle]

/-- Witness for C6 at concrete usernames, session ids and times. -/
theorem single_active_session_witness :
    get_session 10 "s1" (twoCreates demoSettings "alice" "t1" "t2" (some 1) (some 2) "s1" "s2" 0 10) = none ∧
    find_session_by_username "alice" (twoCreates demoSettings "alice" "t1" "t2" (some 1) (some 2) "s1" "s2" 0 10) = some "s2" ∧
    liveSessionIdsFor 10 "alice" (twoCreates demoSettings "alice" "t1" "t2" (some 1) (some 2) "s1" "s2" 0 10) = ["s2"] :=
  single_active_session_after_two_creates demoSettings "alice" "t1" "t2"
    "s1" "s2" (some 1) (some 2) 0 10 (by decide) (by decide)

/-- Claim C7: refresh_session returns success exactly when the stored
session exists and is not already expired, in which case the stored
expires_at is extended to now plus the configured TTL; when the stored
session is expired, refresh_session deletes it and returns failure, so a
successful refresh never resurrects an expired session. -/
theorem refresh_session_extends_or_deletes (s : Settings) (now : Int)
    (sid : String) (st : RedisState)
    (hTTL : 0 < s.ACCESS_TOKEN_EXPIRE_MINUTES) :
    ((refresh_session s now sid st).1 = true ↔
      ∃ d, get_session now sid st = some d ∧ ¬ now > d.expires_at) ∧
    (∀ d, get_session now sid st = some d → ¬ now > d.expires_at →
      get_session now sid (refresh_session s now sid st).2 =
        some { d with expires_at := now + ttlSeconds s }) ∧
    (∀ d, get_session now sid st = some d → now > d.expires_at →
      (refresh_session s now sid st).1 = false ∧
      get_session now sid (refresh_session s now sid st).2 = none) := by
  have hTTLpos : now < now + ttlSeconds s := by
    have : 0 < ttlSeconds s := by
      unfold ttlSeconds
      omega
    omega
  cases hget : get_session now sid st with
  | none =>
      refine ⟨?_, ?_, ?_⟩ <;> simp [refresh_session, hget]
  | some d =>
      by_cases hexp : now > d.expires_at
      · refine ⟨?_, ?_, ?_⟩
        · simp [refresh_session, hget, hexp]
        · intro d2 h2 hne
          obtain rfl : d = d2 := Option.some.inj h2
          exact absurd hexp hne
        · intro d2 h2 _
          obtain rfl : d = d2 := Option.some.inj h2
          constructor
          · simp [refresh_session, hget, hexp]
          · simp only [refresh_session, delete_session, hget]
            rw [if_pos hexp]
            simp [get_session, alGet_alDel]
      · refine ⟨?_, ?_, ?_⟩
        · have hle : now ≤ d.expires_at := by omega
          simp [refresh_session, hget, hexp, hle]
        · intro d2 h2 _
          obtain rfl : d = d2 := Option.some.inj h2
          simp only [refresh_session, hget]
          rw [if_neg hexp]
          simp [get_session, alGet_alSet, hTTLpos]
        · intro d2 h2 hcontra
          obtain rfl : d = d2 := Option.some.inj h2
          exact absurd hcontra hexp

/-- A concrete store holding one session for alice whose stored expires_at
(3) has passed at time 5 while its Redis key TTL (100) has not. -/
def demoStore : RedisState :=
  { sessions :=
      [("s1",
        { data := { username := "alice", access_token := "tok",
                    created_at := 0, expires_at := 3,
                    installation_id := none },
          redisExpireAt := 100 })],
    userIndex := [("alice", "s1")] }

/-- Witness for C7 at the concrete store demoStore and time 5. -/
theorem refresh_session_extends_or_deletes_witness :
    ((refresh_session demoSettings 5 "s1" demoStore).1 = true ↔
      ∃ d, get_session 5 "s1" demoStore = some d ∧
        ¬ (5 : Int) > d.expires_at) ∧
    (∀ d, get_session 5 "s1" demoStore = some d →
      ¬ (5 : Int) > d.expires_at →
      get_session 5 "s1" (refresh_session demoSettings 5 "s1" demoStore).2 =
        some { d with expires_at := 5 + ttlSeconds demoSettings }) ∧
    (∀ d, get_session 5 "s1" demoStore = some d → (5 : Int) > d.expires_at →
      (refresh_session demoSettings 5 "s1" demoStore).1 = false ∧
      get_session 5 "s1" (refresh_session demoSettings 5 "s1" demoStore).2 =
        none) :=
  refresh_session_extends_or_deletes demoSettings 5 "s1" demoStore (by decide)
